import Mathlib

/-!
Verification of the `fastapi-nacos` client facade, centred on
`fastapi_nacos/core/config.py` (class `ConfigManager`),
`fastapi_nacos/core/__init__.py` (class `NacosClientManager`) and
`fastapi_nacos/core/dependencies.py`.

The Python code is shallowly embedded:

* Python `dict`s (the config cache and the listener registry) become
  association lists `List (String × α)`; `d[k] = v` becomes `setKey`
  (extensionally the dict assignment: the key is bound to `v` and all
  other keys are untouched), `del d[k]` becomes `eraseKey`, `k in d`
  becomes `hasKey`, `d[k]` lookup becomes `getKey`.
* Each `async` method of `ConfigManager` performs at most one call to the
  external Nacos SDK session (`self.config_service`).  That backend is an
  external collaborator, so each embedded operation takes the outcome of
  its backend call as an explicit argument (`Except String β`: either the
  exception the backend raised, rendered as a message, or its return
  value) and records the calls it made in a `calls` trace.
* A Python method that can raise returns `Except NacosError α`; since a
  raised exception still leaves the object's mutated attributes in place,
  every operation also returns the post-state, error or not.
* Log statements are pure and are not modelled.  Error messages keep the
  structure of the Python f-strings with the Chinese text rendered in
  English; only their constructor (which exception class was raised) and
  the preserved cause matter to the claims.
-/

/-- Values produced by Python's `json.loads` / `yaml.safe_load`, as needed by
`ConfigManager.get_config_dict`.  Floats are outside the modelled fragment. -/
inductive PyVal where
  | pynone
  | pybool (b : Bool)
  | pyint (n : Int)
  | pystr (s : String)
  | pylist (xs : List PyVal)
  | pydict (kvs : List (String × PyVal))

/-- Whether a Python value is a mapping (a `dict`). -/
def PyVal.isDict : PyVal → Bool
  | .pydict _ => true
  | _ => false

/-- The exceptions raised by the embedded code.  `ConfigError`,
`ConfigListenerError` and `NacosConnectionError` come from
`fastapi_nacos/utils/exceptions.py` (that module only declares the exception
classes); `nacosConnectionError` keeps the `from e` cause.  `attributeError`
models Python's built-in `AttributeError` raised when an instance attribute
that was never assigned is read; `httpException` models
`fastapi.HTTPException` raised by `dependencies.get_nacos_client`. -/
inductive NacosError where
  | configError (msg : String)
  | configListenerError (msg : String)
  | nacosConnectionError (msg : String) (cause : String)
  | attributeError (attr : String)
  | httpException (statusCode : Nat) (detail : String)
deriving DecidableEq, Repr

/-- One call to the external Nacos SDK config session, as issued by
`ConfigManager` (callbacks are identified by an opaque `Nat`). -/
inductive BackendCall where
  | getConfig (data_id group : String)
  | publishConfig (data_id group content : String)
  | removeConfig (data_id group : String)
  | addListener (data_id group : String) (callback : Nat)
  | removeListener (data_id group : String) (callback : Nat)
deriving DecidableEq, Repr

/-! ### Association-list maps (the embedding of Python `dict`) -/

/-- `d[k]` / `d.get(k)`: the value bound to `k`, if any. -/
def getKey {α : Type} (m : List (String × α)) (k : String) : Option α :=
  match m with
  | [] => none
  | p :: rest => if p.1 = k then some p.2 else getKey rest k

/-- `del d[k]`: remove the binding of `k`. -/
def eraseKey {α : Type} (m : List (String × α)) (k : String) :
    List (String × α) :=
  match m with
  | [] => []
  | p :: rest => if p.1 = k then eraseKey rest k else p :: eraseKey rest k

/-- `d[k] = v`: bind `k` to `v`, leaving every other key untouched
(extensionally the Python dict assignment). -/
def setKey {α : Type} (m : List (String × α)) (k : String) (v : α) :
    List (String × α) :=
  (k, v) :: eraseKey m k

/-- `k in d`. -/
def hasKey {α : Type} (m : List (String × α)) (k : String) : Bool :=
  match m with
  | [] => false
  | p :: rest => if p.1 = k then true else hasKey rest k

/-- How many entries are bound to `k` (for a Python dict this is 0 or 1). -/
def countKey {α : Type} (m : List (String × α)) (k : String) : Nat :=
  match m with
  | [] => 0
  | p :: rest => if p.1 = k then countKey rest k + 1 else countKey rest k

theorem getKey_eraseKey_self {α : Type} (m : List (String × α)) (k : String) :
    getKey (eraseKey m k) k = none := by
  induction m with
  | nil => rfl
  | cons p rest ih =>
    by_cases hp : p.1 = k
    · simpa [eraseKey, hp] using ih
    · simp [eraseKey, getKey, hp, ih]

theorem getKey_eraseKey_ne {α : Type} (m : List (String × α)) (k k' : String)
    (h : k' ≠ k) : getKey (eraseKey m k) k' = getKey m k' := by
  induction m with
  | nil => rfl
  | cons p rest ih =>
    by_cases hp : p.1 = k
    · have hp' : p.1 ≠ k' := by rw [hp]; exact fun hk => h hk.symm
      simp [eraseKey, getKey, hp, hp', ih]
      exact (if_neg fun hk => h hk.symm).symm
    · simp [eraseKey, getKey, hp, ih]

theorem getKey_setKey_self {α : Type} (m : List (String × α)) (k : String)
    (v : α) : getKey (setKey m k v) k = some v := by
  simp [getKey, setKey]

theorem getKey_setKey_ne {α : Type} (m : List (String × α)) (k k' : String)
    (v : α) (h : k' ≠ k) : getKey (setKey m k v) k' = getKey m k' := by
  simp only [setKey, getKey]
  rw [if_neg (fun hk => h hk.symm)]
  exact getKey_eraseKey_ne m k k' h

theorem countKey_eraseKey_self {α : Type} (m : List (String × α))
    (k : String) : countKey (eraseKey m k) k = 0 := by
  induction m with
  | nil => rfl
  | cons p rest ih =>
    by_cases hp : p.1 = k
    · simpa [eraseKey, hp] using ih
    · simp [eraseKey, countKey, hp, ih]

theorem countKey_setKey_self {α : Type} (m : List (String × α)) (k : String)
    (v : α) : countKey (setKey m k v) k = 1 := by
  simp [setKey, countKey, countKey_eraseKey_self]

theorem getKey_eq_none_of_hasKey_false {α : Type} (m : List (String × α))
    (k : String) (h : hasKey m k = false) : getKey m k = none := by
  induction m with
  | nil => rfl
  | cons p rest ih =>
    by_cases hp : p.1 = k
    · rw [hasKey] at h
      simp [hp] at h
    · rw [hasKey] at h
      simp only [hp, if_false] at h
      simp [getKey, hp, ih h]

/-! ### Data model (`fastapi_nacos/models/config.py`) -/

/-- `ConfigRequest` (pydantic model).  The `namespace` field is renamed
`namespace_` because `namespace` is a Lean keyword. -/
structure ConfigRequest where
  data_id : String
  group : String := "DEFAULT_GROUP"
  namespace_ : String := ""
deriving DecidableEq, Repr

/-- `ConfigListener` (pydantic model); the `callback` callable is identified
opaquely by a `Nat`. -/
structure ConfigListener where
  data_id : String
  group : String
  namespace_ : String
  callback : Nat
  content_type : String := "text"
deriving DecidableEq, Repr

/-! ### `ConfigManager` state (`config.py`, `__init__`) -/

/-- The mutable attributes of a `ConfigManager`.  `listener_threads` and
`listener_stop_events` are initialised empty and never written by any method,
so they are omitted; `listener_interval` is kept for fidelity. -/
structure ConfigState where
  config_listeners : List (String × ConfigListener)
  config_cache : List (String × Option String)
  listener_interval : Nat
deriving DecidableEq, Repr

/-- The state built by `ConfigManager.__init__`. -/
def ConfigState.initial : ConfigState :=
  { config_listeners := [], config_cache := [], listener_interval := 3 }

/-- Outcome of one embedded `ConfigManager` method: the returned value or the
raised exception, the post-state of the object (mutations survive a raise),
and the backend calls that were issued. -/
structure ConfigResult (α : Type) where
  result : Except NacosError α
  state : ConfigState
  calls : List BackendCall
deriving Repr

/-- The cache / listener key `f"{namespace}:{group}:{data_id}"`. -/
def cacheKey (ns group data_id : String) : String :=
  ns ++ ":" ++ group ++ ":" ++ data_id

/-! ### `ConfigManager` operations (`config.py`) -/

/-- `ConfigManager.get_config`.  The backend call
`config_service.get_config(ConfigParam(data_id, group))` either raises
(`.error e`) or returns the content (`.ok content`, `none` standing for
Python `None`).  On return the content — even `None` — is written into the
cache under `cacheKey`; on a raise the wrapped `ConfigError` propagates and
the cache is untouched. -/
def get_config (st : ConfigState) (request : ConfigRequest)
    (backend : Except String (Option String)) :
    ConfigResult (Option String) :=
  let calls := [BackendCall.getConfig request.data_id request.group]
  match backend with
  | .error e =>
      ⟨.error (.configError ("get config failed: " ++ e)), st, calls⟩
  | .ok content =>
      let key := cacheKey request.namespace_ request.group request.data_id
      ⟨.ok content, { st with config_cache := setKey st.config_cache key content },
        calls⟩

/-- `ConfigManager.set_config`.  `config_service.publish_config` either raises
or returns a boolean `result`; only a `True` result updates the cache. -/
def set_config (st : ConfigState) (data_id : String)
    (group : String := "DEFAULT_GROUP") (content : String := "")
    (ns : String := "") (backend : Except String Bool := .ok true) :
    ConfigResult Bool :=
  let calls := [BackendCall.publishConfig data_id group content]
  match backend with
  | .error e =>
      ⟨.error (.configError ("set config failed: " ++ e)), st, calls⟩
  | .ok result =>
      if result then
        let key := cacheKey ns group data_id
        ⟨.ok result, { st with config_cache := setKey st.config_cache key (some content) },
          calls⟩
      else
        ⟨.ok result, st, calls⟩

/-- `ConfigManager.delete_config`.  `config_service.remove_config` either
raises or returns a boolean `result`; only a `True` result evicts the cache
key (guarded by `if cache_key in self.config_cache`). -/
def delete_config (st : ConfigState) (data_id : String)
    (group : String := "DEFAULT_GROUP") (ns : String := "")
    (backend : Except String Bool := .ok true) : ConfigResult Bool :=
  let calls := [BackendCall.removeConfig data_id group]
  match backend with
  | .error e =>
      ⟨.error (.configError ("delete config failed: " ++ e)), st, calls⟩
  | .ok result =>
      if result then
        let key := cacheKey ns group data_id
        if hasKey st.config_cache key then
          ⟨.ok result, { st with config_cache := eraseKey st.config_cache key },
            calls⟩
        else
          ⟨.ok result, st, calls⟩
      else
        ⟨.ok result, st, calls⟩

/-- `ConfigManager.add_listener`.  The listener is stored in
`config_listeners` BEFORE the backend `config_service.add_listener` call; if
that call raises, a `ConfigListenerError` propagates and the local record is
not rolled back.  On normal return the method returns `True`. -/
def add_listener (st : ConfigState) (listener : ConfigListener)
    (backend : Except String Unit := .ok ()) : ConfigResult Bool :=
  let listener_key := cacheKey listener.namespace_ listener.group listener.data_id
  let st' := { st with
    config_listeners := setKey st.config_listeners listener_key listener }
  let calls := [BackendCall.addListener listener.data_id listener.group
    listener.callback]
  match backend with
  | .error e =>
      ⟨.error (.configListenerError ("add config listener failed: " ++ e)),
        st', calls⟩
  | .ok _ => ⟨.ok true, st', calls⟩

/-- `ConfigManager.remove_listener`.  If no listener is recorded for the key,
returns `False` without any backend call.  Otherwise the backend
`config_service.remove_listener` is called with the recorded listener's
fields; the local record is deleted only after that call returns, so a raise
leaves the registry unchanged and propagates as `ConfigListenerError`. -/
def remove_listener (st : ConfigState) (data_id : String)
    (group : String := "DEFAULT_GROUP") (ns : String := "")
    (backend : Except String Unit := .ok ()) : ConfigResult Bool :=
  let listener_key := cacheKey ns group data_id
  match getKey st.config_listeners listener_key with
  | some listener =>
      let calls := [BackendCall.removeListener listener.data_id listener.group
        listener.callback]
      match backend with
      | .error e =>
          ⟨.error (.configListenerError ("remove config listener failed: " ++ e)),
            st, calls⟩
      | .ok _ =>
          ⟨.ok true,
            { st with config_listeners := eraseKey st.config_listeners listener_key },
            calls⟩
  | none => ⟨.ok false, st, []⟩

/-! ### Content parsing (`json.loads` / `yaml.safe_load`)

`get_config_dict` feeds the fetched content to Python's `json.loads` and, on
a `JSONDecodeError`, to `yaml.safe_load`.  Both are external library
functions, so `get_config_dict` is parameterised by the pair of parsers
(`ContentParsers`).  For concrete witnesses we also provide executable
models of the two parsers on a documented fragment of their real behaviour;
the models are only ever applied at inputs where they agree with CPython's
`json` and PyYAML's `safe_load`. -/

/-- The two content parsers `get_config_dict` depends on: each takes the
content string and either returns the parsed Python value or fails
(`json.JSONDecodeError` / `yaml.YAMLError`, rendered as a message). -/
structure ContentParsers where
  json_loads : String → Except String PyVal
  yaml_safe_load : String → Except String PyVal

/-- JSON whitespace. -/
def isJsonWs (c : Char) : Bool :=
  c = ' ' || c = '\n' || c = '\t' || c = '\r'

/-- Drop leading JSON whitespace. -/
def skipWs : List Char → List Char
  | [] => []
  | c :: cs => if isJsonWs c then skipWs cs else c :: cs

/-- ASCII decimal digit. -/
def isDigitCh (c : Char) : Bool :=
  '0' ≤ c && c ≤ '9'

/-- Split a maximal run of leading digits from the rest. -/
def takeDigits : List Char → List Char × List Char
  | [] => ([], [])
  | c :: cs =>
    if isDigitCh c then
      let (ds, r) := takeDigits cs
      (c :: ds, r)
    else ([], c :: cs)

/-- Value of a digit run. -/
def digitsToNat (ds : List Char) : Nat :=
  ds.foldl (fun a c => a * 10 + (c.toNat - 48)) 0

/-- After a number, a `.`, `e` or `E` would make it a float, which is outside
the modelled fragment: reject rather than return a wrong value. -/
def numTailOk : List Char → Bool
  | [] => true
  | c :: _ => ¬(c = '.' || c = 'e' || c = 'E')

/-- Read the body of a double-quoted string (the opening quote already
consumed) up to the closing quote.  Escapes are outside the fragment. -/
def takeStrChars : List Char → Option (List Char × List Char)
  | [] => none
  | c :: cs =>
    if c = '"' then some ([], cs)
    else if c = '\\' then none
    else
      match takeStrChars cs with
      | some (s, r) => some (c :: s, r)
      | none => none

mutual

/-- Fuel-indexed parser for one JSON value, modelling `json.loads` on the
fragment without floats, string escapes and exponent forms. -/
def jsonVal : Nat → List Char → Option (PyVal × List Char)
  | 0, _ => none
  | Nat.succ fuel, input =>
    match skipWs input with
    | [] => none
    | c :: cs =>
      if c = 'n' then
        match cs with
        | 'u' :: 'l' :: 'l' :: r => some (.pynone, r)
        | _ => none
      else if c = 't' then
        match cs with
        | 'r' :: 'u' :: 'e' :: r => some (.pybool true, r)
        | _ => none
      else if c = 'f' then
        match cs with
        | 'a' :: 'l' :: 's' :: 'e' :: r => some (.pybool false, r)
        | _ => none
      else if c = '"' then
        match takeStrChars cs with
        | some (s, r) => some (.pystr (String.mk s), r)
        | none => none
      else if c = '-' then
        match takeDigits cs with
        | ([], _) => none
        | (ds, r) => if numTailOk r then some (.pyint (-(digitsToNat ds : Int)), r) else none
      else if isDigitCh c then
        match takeDigits (c :: cs) with
        | (ds, r) => if numTailOk r then some (.pyint (digitsToNat ds), r) else none
      else if c = '[' then jsonArrStart fuel cs
      else if c = '{' then jsonObjStart fuel cs
      else none

/-- After `[`: empty array or first element. -/
def jsonArrStart : Nat → List Char → Option (PyVal × List Char)
  | 0, _ => none
  | Nat.succ fuel, input =>
    match skipWs input with
    | ']' :: r => some (.pylist [], r)
    | inp =>
      match jsonVal fuel inp with
      | some (v, r) => jsonArrRest fuel [v] r
      | none => none

/-- After an array element: `,` and another element, or `]`. -/
def jsonArrRest : Nat → List PyVal → List Char → Option (PyVal × List Char)
  | 0, _, _ => none
  | Nat.succ fuel, acc, input =>
    match skipWs input with
    | ']' :: r => some (.pylist acc.reverse, r)
    | ',' :: r =>
      match jsonVal fuel r with
      | some (v, r2) => jsonArrRest fuel (v :: acc) r2
      | none => none
    | _ => none

/-- After `{`: empty object or first member. -/
def jsonObjStart : Nat → List Char → Option (PyVal × List Char)
  | 0, _ => none
  | Nat.succ fuel, input =>
    match skipWs input with
    | '}' :: r => some (.pydict [], r)
    | '"' :: cs =>
      match takeStrChars cs with
      | some (kcs, r) =>
        match skipWs r with
        | ':' :: r2 =>
          match jsonVal fuel r2 with
          | some (v, r3) => jsonObjRest fuel [(String.mk kcs, v)] r3
          | none => none
        | _ => none
      | none => none
    | _ => none

/-- After an object member: `,` and another member, or `}`. -/
def jsonObjRest : Nat → List (String × PyVal) → List Char →
    Option (PyVal × List Char)
  | 0, _, _ => none
  | Nat.succ fuel, acc, input =>
    match skipWs input with
    | '}' :: r => some (.pydict acc.reverse, r)
    | ',' :: r =>
      match skipWs r with
      | '"' :: cs =>
        match takeStrChars cs with
        | some (kcs, r2) =>
          match skipWs r2 with
          | ':' :: r3 =>
            match jsonVal fuel r3 with
            | some (v, r4) => jsonObjRest fuel ((String.mk kcs, v) :: acc) r4
            | none => none
          | _ => none
        | none => none
      | _ => none
    | _ => none

end

/-- Model of Python `json.loads` on the fragment of JSON documents built
from `null`, booleans, escape-free strings, decimal integers (no floats or
exponents), arrays and objects; inputs outside the fragment fail.  Real
`json.loads` rejects every input this model rejects, except inputs using the
excluded forms (floats, escapes, leading zeros); the model is applied only
at inputs where it agrees with `json.loads`. -/
def jsonLoadsModel (s : String) : Except String PyVal :=
  match jsonVal (2 * s.length + 2) s.data with
  | some (v, rest) =>
    match skipWs rest with
    | [] => .ok v
    | _ => .error "Extra data"
  | none => .error "Expecting value"

/-- Resolution of a YAML plain scalar (fragment: null/bool/int/string). -/
def resolvePlainScalar (s : String) : PyVal :=
  if s = "null" || s = "Null" || s = "NULL" || s = "~" then .pynone
  else if s = "true" || s = "True" || s = "TRUE" then .pybool true
  else if s = "false" || s = "False" || s = "FALSE" then .pybool false
  else
    match s.data with
    | '-' :: (d :: ds) =>
      if (d :: ds).all isDigitCh then .pyint (-(digitsToNat (d :: ds) : Int))
      else .pystr s
    | d :: ds =>
      if (d :: ds).all isDigitCh then .pyint (digitsToNat (d :: ds))
      else .pystr s
    | [] => .pystr s

/-- Whether a character occurs in a character list. -/
def containsChar (c : Char) : List Char → Bool
  | [] => false
  | d :: rest => if d = c then true else containsChar c rest

/-- Split a character list into the groups separated by `sep`. -/
def splitOnChar (sep : Char) : List Char → List (List Char)
  | [] => [[]]
  | c :: rest =>
    match splitOnChar sep rest with
    | [] => if c = sep then [[], []] else [[c]]
    | g :: gs => if c = sep then [] :: g :: gs else (c :: g) :: gs

/-- Split at the first `": "` occurrence: the part before and after it. -/
def splitKVChars : List Char → Option (List Char × List Char)
  | [] => none
  | ':' :: ' ' :: rest => some ([], rest)
  | c :: rest =>
    match splitKVChars rest with
    | some (k, v) => some (c :: k, v)
    | none => none

/-- Split one block-mapping line `key: value` at `": "`, requiring nonempty
colon-free key and value (the modelled fragment). -/
def splitKV (line : List Char) : Option (String × String) :=
  match splitKVChars line with
  | some (k, v) =>
    if k ≠ [] && v ≠ [] && ¬containsChar ':' k && ¬containsChar ':' v then
      some (String.mk k, String.mk v)
    else none
  | none => none

/-- Model of PyYAML `yaml.safe_load` on a fragment: a document in flow style
(starting with `[` or with the opening curly bracket) is read with the JSON
flow parser (YAML flow is a superset of JSON on that fragment); otherwise
the document must be a single plain scalar line or a block mapping with one
`key: value` pair per line.  Anything else is outside the fragment and
fails; the model is applied only at inputs where it agrees with
`yaml.safe_load`. -/
def yamlSafeLoadModel (s : String) : Except String PyVal :=
  match s.data with
  | [] => .ok .pynone
  | c :: _ =>
    if c = '[' || c = '{' then
      match jsonVal (2 * s.length + 2) s.data with
      | some (v, rest) =>
        match skipWs rest with
        | [] => .ok v
        | _ => .error "expected end of stream"
      | none => .error "while parsing a flow node"
    else
      match (splitOnChar '\n' s.data).filter (fun l => l ≠ []) with
      | [] => .ok .pynone
      | [l] =>
        match splitKV l with
        | some (k, v) => .ok (.pydict [(k, resolvePlainScalar v)])
        | none =>
          if containsChar ':' l then .error "outside modelled fragment"
          else .ok (resolvePlainScalar (String.mk l))
      | ls =>
        match ls.mapM splitKV with
        | some kvs =>
          .ok (.pydict (kvs.map fun p => (p.1, resolvePlainScalar p.2)))
        | none => .error "outside modelled fragment"

/-- The model parser pair standing for CPython `json` and PyYAML. -/
def pythonContentParsers : ContentParsers :=
  { json_loads := jsonLoadsModel, yaml_safe_load := yamlSafeLoadModel }

/-- `ConfigManager.get_config_dict`: calls `get_config` (whose `ConfigError`
propagates), returns the empty dict if the content is falsy (`None` or the
empty string), otherwise tries `json.loads`, then on `JSONDecodeError` tries
`yaml.safe_load`, and on `YAMLError` raises `ConfigError`.  The parse result
is returned as-is, whatever Python value it is. -/
def get_config_dict (P : ContentParsers) (st : ConfigState)
    (request : ConfigRequest) (backend : Except String (Option String)) :
    ConfigResult PyVal :=
  let r := get_config st request backend
  match r.result with
  | .error e => ⟨.error e, r.state, r.calls⟩
  | .ok contentOpt =>
    match contentOpt with
    | none => ⟨.ok (.pydict []), r.state, r.calls⟩
    | some content =>
      if content = "" then ⟨.ok (.pydict []), r.state, r.calls⟩
      else
        match P.json_loads content with
        | .ok v => ⟨.ok v, r.state, r.calls⟩
        | .error _ =>
          match P.yaml_safe_load content with
          | .ok v => ⟨.ok v, r.state, r.calls⟩
          | .error _ =>
            ⟨.error (.configError
              ("config content parse failed: data_id=" ++ request.data_id)),
              r.state, r.calls⟩

/-- `ConfigManager.refresh_config_cache`: builds a `ConfigRequest` and calls
`get_config`; ANY exception from it is caught and turned into `False`. -/
def refresh_config_cache (st : ConfigState) (data_id : String)
    (group : String := "DEFAULT_GROUP") (ns : String := "")
    (backend : Except String (Option String) := .ok none) : ConfigResult Bool :=
  let r := get_config st
    { data_id := data_id, group := group, namespace_ := ns } backend
  match r.result with
  | .ok _ => ⟨.ok true, r.state, r.calls⟩
  | .error _ => ⟨.ok false, r.state, r.calls⟩

/-- `ConfigManager.get_cache`. -/
def get_cache (st : ConfigState) : List (String × Option String) :=
  st.config_cache

/-- `ConfigManager.clear_cache`: `self.config_cache.clear()` (which cannot
raise) inside a `try` that would return `False` on an exception; no backend
call, listeners untouched. -/
def clear_cache (st : ConfigState) : ConfigResult Bool :=
  ⟨.ok true, { st with config_cache := [] }, []⟩

/-! ### `NacosClientManager` (`core/__init__.py`) and the module-global
client (`core/dependencies.py`)

`ServiceRegistry` and `ServiceDiscovery` (from `core/registration.py` and
`core/discovery.py`) are opaque here: their constructors just wrap the
naming-service session, so each component is modelled as the session handle
(a `Nat`) it was built from.  A Python attribute that `__init__` never
assigns simply does not exist on the instance, so each such attribute is an
`Option`: `none` means "never assigned", and reading it raises
`AttributeError`. -/

/-- The instance attributes of `NacosClientManager`.  `__init__` assigns
none of them (it only updates the class-level `_instance`), so a fresh
manager has every field `none`. -/
structure NacosClientManager where
  naming_service : Option Nat := none
  registryAttr : Option Nat := none
  discoveryAttr : Option Nat := none
deriving DecidableEq, Repr

/-- `NacosClientManager.init_registry_discovery_service`: builds the client
config and awaits `NacosNamingService.create_naming_service` (the opaque
backend, here either the raised exception's message or the new session
handle).  On success `self.naming_service`, `self._registry` and
`self._discovery` are assigned; on a raise they remain unassigned and a
`NacosConnectionError` carrying the original cause propagates. -/
def init_registry_discovery_service (m : NacosClientManager)
    (backend : Except String Nat) :
    Except NacosError Unit × NacosClientManager :=
  match backend with
  | .error e =>
      (.error (.nacosConnectionError
        ("init registry discovery service failed: " ++ e) e), m)
  | .ok session =>
      (.ok (), { m with naming_service := some session,
                        registryAttr := some session,
                        discoveryAttr := some session })

/-- The `registry` property: `return self._registry`, which raises
`AttributeError` when `_registry` was never assigned. -/
def NacosClientManager.getRegistry (m : NacosClientManager) :
    Except NacosError Nat :=
  match m.registryAttr with
  | none => .error (.attributeError "_registry")
  | some r => .ok r

/-- The `discovery` property: `return self._discovery`. -/
def NacosClientManager.getDiscovery (m : NacosClientManager) :
    Except NacosError Nat :=
  match m.discoveryAttr with
  | none => .error (.attributeError "_discovery")
  | some d => .ok d

/-- The detail string of the `HTTPException` raised by
`dependencies.get_nacos_client` when the module-global manager is unset
(rendered in English). -/
def notInitializedDetail : String :=
  "Nacos client not initialized, call the init_nacos_client function first"

/-- Whether an exception is the "not initialized" error of
`dependencies.get_nacos_client`. -/
def NacosError.isNotInitialized : NacosError → Bool
  | .httpException _ detail => detail = notInitializedDetail
  | _ => false

/-- `dependencies.init_nacos_registry_discovery_client`: assigns the
module-global `_nacos_client_manager` to a fresh `NacosClientManager()`
BEFORE awaiting `init_registry_discovery_service` on it, so when init raises
the global is already set (to the manager with unassigned components) and
the exception propagates. -/
def init_nacos_registry_discovery_client (backend : Except String Nat) :
    Except NacosError Unit × Option NacosClientManager :=
  let mgr : NacosClientManager := {}
  let (r, mgr') := init_registry_discovery_service mgr backend
  (r, some mgr')

/-- `dependencies.get_nacos_client`: raises `HTTPException(500, ...)` when
the module-global `_nacos_client_manager` is `None`, otherwise returns it. -/
def get_nacos_client (globalMgr : Option NacosClientManager) :
    Except NacosError NacosClientManager :=
  match globalMgr with
  | none => .error (.httpException 500 notInitializedDetail)
  | some m => .ok m

/-- Whether a `get_config_dict` outcome is either a returned value or a
raised `ConfigError` (as opposed to some other exception). -/
def resultConfigErrorOrValue : Except NacosError PyVal → Bool
  | .error (.configError _) => true
  | .error _ => false
  | .ok _ => true

/-! ## Theorems -/

/-- C1: config cache coherence.  For every key, after a successful
`get_config` the cache entry under `namespace:group:dataId` equals the
content just returned; after a successful `set_config` (backend returned
`True`) it equals the content just written; after a successful
`delete_config` (backend returned `True`) the key is absent. -/
theorem config_cache_coherence (st : ConfigState) (request : ConfigRequest)
    (content : Option String) (data_id group newContent ns : String) :
    getKey (get_config st request (.ok content)).state.config_cache
        (cacheKey request.namespace_ request.group request.data_id) = some content
  ∧ getKey (set_config st data_id group newContent ns (.ok true)).state.config_cache
        (cacheKey ns group data_id) = some (some newContent)
  ∧ getKey (delete_config st data_id group ns (.ok true)).state.config_cache
        (cacheKey ns group data_id) = none := by
  refine ⟨?_, ?_, ?_⟩
  · simp [get_config, getKey_setKey_self]
  · simp [set_config, getKey_setKey_self]
  · cases hh : hasKey st.config_cache (cacheKey ns group data_id) with
    | true => simp [delete_config, hh, getKey_eraseKey_self]
    | false => simp [delete_config, hh, getKey_eq_none_of_hasKey_false _ _ hh]

/-- C2: listener replacement.  Adding two listeners for the same
(data_id, group, namespace) key leaves exactly one entry for that key in the
listener registry, and it is the second listener — looked up both under the
second listener's key and under the (equal) first listener's key. -/
theorem listener_replacement (st : ConfigState) (l1 l2 : ConfigListener)
    (h1 : l1.data_id = l2.data_id) (h2 : l1.group = l2.group)
    (h3 : l1.namespace_ = l2.namespace_) :
    getKey (add_listener (add_listener st l1 (.ok ())).state l2
        (.ok ())).state.config_listeners
      (cacheKey l2.namespace_ l2.group l2.data_id) = some l2
  ∧ countKey (add_listener (add_listener st l1 (.ok ())).state l2
        (.ok ())).state.config_listeners
      (cacheKey l2.namespace_ l2.group l2.data_id) = 1
  ∧ getKey (add_listener (add_listener st l1 (.ok ())).state l2
        (.ok ())).state.config_listeners
      (cacheKey l1.namespace_ l1.group l1.data_id) = some l2 := by
  have hk : cacheKey l1.namespace_ l1.group l1.data_id =
      cacheKey l2.namespace_ l2.group l2.data_id := by rw [h1, h2, h3]
  refine ⟨?_, ?_, ?_⟩
  · simp [add_listener, getKey_setKey_self]
  · simp [add_listener, countKey_setKey_self]
  · simp [add_listener, hk, getKey_setKey_self]

/-- C2 witness: two concrete listeners for key `"ns:g:d"`; after both are
added the registry holds exactly the second one under that key. -/
theorem listener_replacement_witness :
    getKey (add_listener (add_listener ConfigState.initial
        ⟨"d", "g", "ns", 1, "text"⟩ (.ok ())).state
        ⟨"d", "g", "ns", 2, "text"⟩ (.ok ())).state.config_listeners
      (cacheKey "ns" "g" "d") = some ⟨"d", "g", "ns", 2, "text"⟩ :=
  (listener_replacement ConfigState.initial ⟨"d", "g", "ns", 1, "text"⟩
    ⟨"d", "g", "ns", 2, "text"⟩ rfl rfl rfl).1

/-- C3: boolean-failure convention with cache atomicity.  When the backend
primitive of `set_config` / `delete_config` returns `False` without raising,
the operation returns `False` and the whole `ConfigManager` state (in
particular the cache) is unchanged; when the backend raises, a typed
`ConfigError` is raised instead of returning `False`. -/
theorem bool_failure_convention (st : ConfigState)
    (data_id group content ns e : String) :
    set_config st data_id group content ns (.ok false) =
      ⟨.ok false, st, [.publishConfig data_id group content]⟩
  ∧ delete_config st data_id group ns (.ok false) =
      ⟨.ok false, st, [.removeConfig data_id group]⟩
  ∧ set_config st data_id group content ns (.error e) =
      ⟨.error (.configError ("set config failed: " ++ e)), st,
        [.publishConfig data_id group content]⟩
  ∧ delete_config st data_id group ns (.error e) =
      ⟨.error (.configError ("delete config failed: " ++ e)), st,
        [.removeConfig data_id group]⟩ :=
  ⟨rfl, rfl, rfl, rfl⟩

/-- C4 counterexample: the claim says `get_config_dict` never returns a
non-mapping value, but fetched content `"1"` parses as JSON to the integer
`1` (exactly as CPython `json.loads` does) and `get_config_dict` returns
that integer, which is not a mapping. -/
theorem get_config_dict_nonmapping_counterexample :
    (get_config_dict pythonContentParsers ConfigState.initial
        ⟨"d", "DEFAULT_GROUP", ""⟩ (.ok (some "1"))).result = .ok (.pyint 1)
  ∧ PyVal.isDict (.pyint 1) = false :=
  ⟨rfl, rfl⟩

/-- C4 (amended): `get_config_dict` either raises `ConfigError` or returns
the parsed value; it returns an empty mapping whenever the fetched content
is absent (`None`) or empty, but when the content parses to a non-mapping
value that value is returned as-is (e.g. content `"1"` yields the integer
`1`). -/
theorem get_config_dict_structured (P : ContentParsers) (st : ConfigState)
    (request : ConfigRequest) :
    (get_config_dict P st request (.ok none)).result = .ok (.pydict [])
  ∧ (get_config_dict P st request (.ok (some ""))).result = .ok (.pydict [])
  ∧ (∀ b, resultConfigErrorOrValue (get_config_dict P st request b).result = true)
  ∧ (get_config_dict pythonContentParsers st request
      (.ok (some "1"))).result = .ok (.pyint 1) := by
  refine ⟨rfl, rfl, ?_, ?_⟩
  · intro b
    cases b with
    | error e => rfl
    | ok contentOpt =>
      cases contentOpt with
      | none => rfl
      | some c =>
        by_cases hc : c = ""
        · simp [get_config_dict, get_config, hc, resultConfigErrorOrValue]
        · cases hj : P.json_loads c with
          | ok v =>
            simp [get_config_dict, get_config, hc, hj, resultConfigErrorOrValue]
          | error e1 =>
            cases hy : P.yaml_safe_load c with
            | ok v =>
              simp [get_config_dict, get_config, hc, hj, hy,
                resultConfigErrorOrValue]
            | error e2 =>
              simp [get_config_dict, get_config, hc, hj, hy,
                resultConfigErrorOrValue]
  · simp [get_config_dict, get_config]
    rfl

/-- C5: structured parse fallback order.  For non-empty content,
`get_config_dict` returns the JSON parse when it succeeds; on JSON failure
it returns the YAML parse when that succeeds (content `"a: 1"` yields the
mapping of `"a"` to `1`); and when both parses fail it raises `ConfigError`
rather than silently returning an empty mapping. -/
theorem parse_fallback_order (P : ContentParsers) (st : ConfigState)
    (request : ConfigRequest) (c : String) (hc : c ≠ "") :
    (∀ v, P.json_loads c = .ok v →
      (get_config_dict P st request (.ok (some c))).result = .ok v)
  ∧ (∀ e v, P.json_loads c = .error e → P.yaml_safe_load c = .ok v →
      (get_config_dict P st request (.ok (some c))).result = .ok v)
  ∧ (∀ e1 e2, P.json_loads c = .error e1 → P.yaml_safe_load c = .error e2 →
      (get_config_dict P st request (.ok (some c))).result =
        .error (.configError
          ("config content parse failed: data_id=" ++ request.data_id)))
  ∧ (get_config_dict pythonContentParsers st request
      (.ok (some "a: 1"))).result = .ok (.pydict [("a", .pyint 1)]) := by
  refine ⟨?_, ?_, ?_, ?_⟩
  · intro v hj
    simp [get_config_dict, get_config, hc, hj]
  · intro e v hj hy
    simp [get_config_dict, get_config, hc, hj, hy]
  · intro e1 e2 hj hy
    simp [get_config_dict, get_config, hc, hj, hy]
  · simp [get_config_dict, get_config]
    rfl

/-- C5 witness: with the concrete parser models, content `"["` fails both
parses and raises `ConfigError`, and content `"a: 1"` falls back to YAML
yielding the mapping of `"a"` to `1`. -/
theorem parse_fallback_order_witness :
    (get_config_dict pythonContentParsers ConfigState.initial
        ⟨"d", "DEFAULT_GROUP", ""⟩ (.ok (some "["))).result =
      .error (.configError "config content parse failed: data_id=d")
  ∧ (get_config_dict pythonContentParsers ConfigState.initial
        ⟨"d", "DEFAULT_GROUP", ""⟩ (.ok (some "a: 1"))).result =
      .ok (.pydict [("a", .pyint 1)]) := by
  refine ⟨?_, ?_⟩
  · exact (parse_fallback_order pythonContentParsers ConfigState.initial
      ⟨"d", "DEFAULT_GROUP", ""⟩ "[" (by decide)).2.2.1
      "Expecting value" "while parsing a flow node" rfl rfl
  · exact (parse_fallback_order pythonContentParsers ConfigState.initial
      ⟨"d", "DEFAULT_GROUP", ""⟩ "[" (by decide)).2.2.2

/-- C6 counterexample: after a failed
`init_nacos_registry_discovery_client` (session establishment raised
`"connection refused"`), the init call does raise `NacosConnectionError`
carrying the cause and the components are unset, BUT the module-global
manager is already assigned, so `get_nacos_client` returns it instead of a
"not initialized" error, and reading the `registry` property fails with an
`AttributeError`, which is not the "not initialized" error — refuting the
claim that every subsequent dependent operation fails with a "not
initialized" error. -/
theorem init_failure_counterexample :
    init_nacos_registry_discovery_client (.error "connection refused") =
      (.error (.nacosConnectionError
          "init registry discovery service failed: connection refused"
          "connection refused"),
        some ({} : NacosClientManager))
  ∧ ({} : NacosClientManager).registryAttr = none
  ∧ get_nacos_client (some ({} : NacosClientManager)) = .ok {}
  ∧ ({} : NacosClientManager).getRegistry = .error (.attributeError "_registry")
  ∧ (NacosError.attributeError "_registry").isNotInitialized = false :=
  ⟨rfl, rfl, rfl, rfl, rfl⟩

/-- C6 (amended): if establishing the naming session raises,
`init_registry_discovery_service` raises `NacosConnectionError` carrying the
original cause and the Registry/Discovery attributes remain unset; the
module-global manager is assigned before init, so subsequent operations
depending on Registry/Discovery fail — but with an `AttributeError` for the
unset attribute rather than a typed "not initialized" error, which
`get_nacos_client` raises only when no manager was ever constructed. -/
theorem init_failure_contract (m : NacosClientManager) (e : String) :
    init_registry_discovery_service m (.error e) =
      (.error (.nacosConnectionError
        ("init registry discovery service failed: " ++ e) e), m)
  ∧ init_nacos_registry_discovery_client (.error e) =
      (.error (.nacosConnectionError
        ("init registry discovery service failed: " ++ e) e),
        some ({} : NacosClientManager))
  ∧ ({} : NacosClientManager).registryAttr = none
  ∧ ({} : NacosClientManager).discoveryAttr = none
  ∧ ({} : NacosClientManager).getRegistry = .error (.attributeError "_registry")
  ∧ ({} : NacosClientManager).getDiscovery =
      .error (.attributeError "_discovery")
  ∧ (NacosError.attributeError "_registry").isNotInitialized = false
  ∧ get_nacos_client none = .error (.httpException 500 notInitializedDetail)
  ∧ (NacosError.httpException 500 notInitializedDetail).isNotInitialized = true
  ∧ get_nacos_client (some m) = .ok m :=
  ⟨rfl, rfl, rfl, rfl, rfl, rfl, rfl, rfl, by simp [NacosError.isNotInitialized], rfl⟩

/-- C7: frame property of `clear_cache`.  It returns `True`, empties the
config cache, performs no backend call, and leaves the listener registry
(and every other attribute) unchanged. -/
theorem clear_cache_frame (st : ConfigState) :
    (clear_cache st).result = .ok true
  ∧ (clear_cache st).state.config_cache = []
  ∧ (clear_cache st).state.config_listeners = st.config_listeners
  ∧ (clear_cache st).state.listener_interval = st.listener_interval
  ∧ (clear_cache st).calls = [] :=
  ⟨rfl, rfl, rfl, rfl, rfl⟩

/-- C8: non-atomic listener add on error.  The listener is recorded locally
before the backend call, so when the backend registration raises,
`add_listener` raises `ConfigListenerError` yet the registry already holds
the new listener under its key; on a normal return it returns `True`
(never `False`). -/
theorem add_listener_non_atomic (st : ConfigState) (l : ConfigListener)
    (e : String) :
    (add_listener st l (.error e)).result =
      .error (.configListenerError ("add config listener failed: " ++ e))
  ∧ getKey (add_listener st l (.error e)).state.config_listeners
      (cacheKey l.namespace_ l.group l.data_id) = some l
  ∧ ∀ u : Unit, (add_listener st l (.ok u)).result = .ok true := by
  refine ⟨rfl, ?_, fun _ => rfl⟩
  simp [add_listener, getKey_setKey_self]

/-- C9: atomic listener removal.  With no recorded listener for the key,
`remove_listener` returns `False`, changes nothing and calls no backend
primitive; with a recorded listener, a raising backend call leaves the
registry unchanged and raises `ConfigListenerError`, while a successful one
deletes the record and returns `True`; it returns `True` exactly when a
listener was recorded and the backend call succeeded. -/
theorem remove_listener_atomicity (st : ConfigState)
    (data_id group ns e : String) (l : ConfigListener) :
    (getKey st.config_listeners (cacheKey ns group data_id) = none →
      ∀ b, remove_listener st data_id group ns b = ⟨.ok false, st, []⟩)
  ∧ (getKey st.config_listeners (cacheKey ns group data_id) = some l →
      remove_listener st data_id group ns (.error e) =
        ⟨.error (.configListenerError
            ("remove config listener failed: " ++ e)), st,
          [.removeListener l.data_id l.group l.callback]⟩)
  ∧ (getKey st.config_listeners (cacheKey ns group data_id) = some l →
      remove_listener st data_id group ns (.ok ()) =
        ⟨.ok true,
          { st with config_listeners :=
              eraseKey st.config_listeners (cacheKey ns group data_id) },
          [.removeListener l.data_id l.group l.callback]⟩)
  ∧ (∀ b, (remove_listener st data_id group ns b).result = .ok true ↔
      ((getKey st.config_listeners (cacheKey ns group data_id)).isSome ∧
        b = .ok ())) := by
  refine ⟨?_, ?_, ?_, ?_⟩
  · intro h b
    simp [remove_listener, h]
  · intro h
    simp [remove_listener, h]
  · intro h
    simp [remove_listener, h]
  · intro b
    cases hk : getKey st.config_listeners (cacheKey ns group data_id) with
    | none =>
      cases b <;> simp [remove_listener, hk]
    | some l' =>
      cases b <;> simp [remove_listener, hk]

/-- C9 witness: with listener `⟨"d", "g", "ns", 7, "text"⟩` recorded, a
raising backend call leaves the registry unchanged while a successful one
removes the record; with an empty registry, `remove_listener` returns
`False` with no backend call. -/
theorem remove_listener_atomicity_witness :
    remove_listener
        { ConfigState.initial with
          config_listeners :=
            [(cacheKey "ns" "g" "d", ⟨"d", "g", "ns", 7, "text"⟩)] }
        "d" "g" "ns" (.error "boom") =
      ⟨.error (.configListenerError "remove config listener failed: boom"),
        { ConfigState.initial with
          config_listeners :=
            [(cacheKey "ns" "g" "d", ⟨"d", "g", "ns", 7, "text"⟩)] },
        [.removeListener "d" "g" 7]⟩
  ∧ remove_listener
        { ConfigState.initial with
          config_listeners :=
            [(cacheKey "ns" "g" "d", ⟨"d", "g", "ns", 7, "text"⟩)] }
        "d" "g" "ns" (.ok ()) =
      ⟨.ok true, ConfigState.initial, [.removeListener "d" "g" 7]⟩
  ∧ remove_listener ConfigState.initial "d" "g" "ns" (.ok ()) =
      ⟨.ok false, ConfigState.initial, []⟩ := by
  refine ⟨?_, ?_, ?_⟩
  · exact (remove_listener_atomicity _ "d" "g" "ns" "boom"
      ⟨"d", "g", "ns", 7, "text"⟩).2.1 (by decide)
  · have h := (remove_listener_atomicity
      { ConfigState.initial with
        config_listeners :=
          [(cacheKey "ns" "g" "d", ⟨"d", "g", "ns", 7, "text"⟩)] }
      "d" "g" "ns" "boom" ⟨"d", "g", "ns", 7, "text"⟩).2.2.1 (by decide)
    rw [h]
    rfl
  · exact (remove_listener_atomicity ConfigState.initial "d" "g" "ns" "boom"
      ⟨"d", "g", "ns", 7, "text"⟩).1 (by decide) _

/-- C10: `refresh_config_cache` swallows errors.  When the underlying
`get_config` raises (backend exception, wrapped as `ConfigError`),
`refresh_config_cache` catches it and returns `False` with the state
unchanged; it returns `True` exactly when `get_config` succeeds. -/
theorem refresh_config_cache_swallows (st : ConfigState)
    (data_id group ns e : String) (content : Option String) :
    refresh_config_cache st data_id group ns (.error e) =
      ⟨.ok false, st, [.getConfig data_id group]⟩
  ∧ (refresh_config_cache st data_id group ns (.ok content)).result =
      .ok true :=
  ⟨rfl, rfl⟩
